import Mathlib

/-!
Verification development for `cmsplugin_zinnia/cms_plugins.py`.

The repository's plugins each expose a `render(context, instance, placeholder)`
method that builds a queryset of blog entries and pushes a small dictionary of
new keys onto the shared template context.  We embed the data model and every
`render` method as executable Lean functions and prove the behavioural
properties of the specification about them.

Modelling choices, taken from the source:
* a Django queryset is a list of entry rows, in queryset order;
* `Entry.published.all()` is an arbitrary base list `published`;
* `entries.filter(categories__in=cats)` performs an SQL join against the
  entry-category through table, so an entry row is duplicated once per
  matching category (this join duplication is the reason the source calls
  `.distinct()`); likewise for `authors__in`;
* `TaggedItem.objects.get_union_by_model(entries, tags)` (django-tagging)
  restricts the queryset to the ids of objects carrying any of the given
  tags via an `IN (subquery)` clause: no duplication is introduced, existing
  rows are kept, and an empty tag list yields the empty queryset;
* `entries.distinct()` removes duplicate rows keeping the first occurrence;
* `entries[:n]` takes the first `n` rows;
* `c.get_descendants()` (mptt, on zinnia categories) is an uninterpreted
  function `getDescendants` from a category to its descendant categories;
* a template context is an association list of string keys; `context.update(d)`
  pushes the new pairs in front, so they shadow older bindings.
-/

/-- Entry is a published blog post row: a primary key together with its
related category ids, author ids and tag names. -/
structure Entry where
  id : Nat
  categories : List Nat
  authors : List Nat
  tags : List String
deriving DecidableEq, Repr

/-- LatestEntriesPlugin is the configuration record of the latest-entries
plugin: a limit (`0` models Python falsy `None`/`0`, meaning unlimited), a
template override, the category filter set with its subcategories flag, the
author filter set and the tag filter set. -/
structure LatestEntriesPlugin where
  number_of_entries : Nat
  template_to_render : String
  categories : List Nat
  subcategories : Bool
  authors : List Nat
  tags : List String
deriving DecidableEq, Repr

/-- SelectedEntriesPlugin stores an explicit ordered list of entries. -/
structure SelectedEntriesPlugin where
  entries : List Entry
  template_to_render : String
deriving DecidableEq, Repr

/-- RandomEntriesPlugin stores a count and a template override. -/
structure RandomEntriesPlugin where
  number_of_entries : Nat
  template_to_render : String
deriving DecidableEq, Repr

/-- QueryEntriesPlugin stores a free-text query and a limit. -/
structure QueryEntriesPlugin where
  query : String
  number_of_entries : Nat
  template_to_render : String
deriving DecidableEq, Repr

/-- CalendarEntriesPlugin stores an optional year and month. -/
structure CalendarEntriesPlugin where
  year : Option Nat
  month : Option Nat
deriving DecidableEq, Repr

/-- distinctAux walks the row list keeping the first occurrence of each row
not already seen; it embeds the effect of `queryset.distinct()`. -/
def distinctAux [DecidableEq α] : List α → List α → List α
  | _, [] => []
  | seen, a :: l =>
    if a ∈ seen then distinctAux seen l else a :: distinctAux (a :: seen) l

/-- distinct removes duplicate rows, keeping the first occurrence of each:
the embedding of `entries.distinct()` (line 85 of the source). -/
def distinct [DecidableEq α] (l : List α) : List α :=
  distinctAux [] l

/-- catJoinFilter embeds `entries.filter(categories__in=cats)` (line 78):
the SQL join duplicates each entry row once per category of the entry that
lies in `cats`; entries with no matching category are dropped
(`List.replicate 0` is empty). -/
def catJoinFilter (cats : List Nat) (qs : List Entry) : List Entry :=
  (qs.map (fun e =>
    List.replicate (e.categories.filter (fun c => c ∈ cats)).length e)).flatten

/-- authorJoinFilter embeds `entries.filter(authors__in=authors)` (line 80),
with the same join-duplication semantics as `catJoinFilter`. -/
def authorJoinFilter (auths : List Nat) (qs : List Entry) : List Entry :=
  (qs.map (fun e =>
    List.replicate (e.authors.filter (fun a => a ∈ auths)).length e)).flatten

/-- tagUnionFilter embeds django-tagging's
`TaggedItem.objects.get_union_by_model(entries, tags)` (lines 82-83): the
queryset is restricted to rows whose entry carries any of the given tags
(inclusive OR, via an `id IN (subquery)` clause, so no new duplication), and
an empty tag list yields the empty queryset. -/
def tagUnionFilter (tags : List String) (qs : List Entry) : List Entry :=
  if tags.isEmpty then []
  else qs.filter (fun e => e.tags.any (fun t => t ∈ tags))

/-- effectiveCategories embeds lines 72-76: the configured categories,
chained with every configured category's descendants when the
`subcategories` flag is set (`itertools.chain(cats, *[c.get_descendants()
for c in cats])`). -/
def effectiveCategories (getDescendants : Nat → List Nat)
    (inst : LatestEntriesPlugin) : List Nat :=
  if inst.subcategories then
    inst.categories ++ (inst.categories.map getDescendants).flatten
  else inst.categories

/-- catStage embeds lines 71-78: when the configured category set is
nonempty (`instance.categories.count()` truthy) restrict the queryset by the
effective categories, otherwise pass it through. -/
def catStage (getDescendants : Nat → List Nat) (inst : LatestEntriesPlugin)
    (qs : List Entry) : List Entry :=
  if inst.categories = [] then qs
  else catJoinFilter (effectiveCategories getDescendants inst) qs

/-- authorStage embeds lines 79-80: restrict by authors when the configured
author set is nonempty, otherwise pass through. -/
def authorStage (inst : LatestEntriesPlugin) (qs : List Entry) : List Entry :=
  if inst.authors = [] then qs
  else authorJoinFilter inst.authors qs

/-- tagStage embeds lines 81-83: restrict to entries carrying any configured
tag when the configured tag set is nonempty, otherwise pass through. -/
def tagStage (inst : LatestEntriesPlugin) (qs : List Entry) : List Entry :=
  if inst.tags = [] then qs
  else tagUnionFilter inst.tags qs

/-- latestSelected is the deduplicated selection of
`CMSLatestEntriesPlugin.render` before the limit (lines 69-85): category,
author and tag stages applied in order to the published entries, then
`distinct()`. -/
def latestSelected (getDescendants : Nat → List Nat) (published : List Entry)
    (inst : LatestEntriesPlugin) : List Entry :=
  distinct (tagStage inst (authorStage inst
    (catStage getDescendants inst published)))

/-- latestEntries is the full entry computation of
`CMSLatestEntriesPlugin.render` (lines 69-87): the deduplicated selection,
truncated by `entries[:instance.number_of_entries]` when the configured
limit is truthy (nonzero). -/
def latestEntries (getDescendants : Nat → List Nat) (published : List Entry)
    (inst : LatestEntriesPlugin) : List Entry :=
  let e := latestSelected getDescendants published inst
  if inst.number_of_entries ≠ 0 then e.take inst.number_of_entries else e

/-- queryEntries is the entry computation of `CMSQueryEntriesPlugin.render`
(lines 148-150): `Entry.published.search(instance.query)` (the search
capability is the uninterpreted function `search`), truncated when the
configured limit is truthy. -/
def queryEntries (search : String → List Entry)
    (inst : QueryEntriesPlugin) : List Entry :=
  let e := search inst.query
  if inst.number_of_entries ≠ 0 then e.take inst.number_of_entries else e

/-- CtxVal is the type of values stored in a template context by the
plugins: an entry queryset, a plugin instance (`object`), the placeholder,
or a plain string such as a template name. -/
inductive CtxVal where
  | entryList (l : List Entry)
  | latestInst (i : LatestEntriesPlugin)
  | selectedInst (i : SelectedEntriesPlugin)
  | randomInst (i : RandomEntriesPlugin)
  | queryInst (i : QueryEntriesPlugin)
  | calendarInst (i : CalendarEntriesPlugin)
  | cmsInst (id : Nat)
  | placeholderVal (p : String)
  | strVal (s : String)
deriving DecidableEq, Repr

/-- Ctx is a template context: an association list from keys to values in
which the frontmost binding of a key is the visible one. -/
abbrev Ctx : Type := List (String × CtxVal)

/-- ctxGet looks a key up in a context, returning the frontmost binding. -/
def ctxGet : Ctx → String → Option CtxVal
  | [], _ => none
  | (k, v) :: c, key => if k = key then some v else ctxGet c key

/-- ctxUpdate embeds `context.update(d)`: the new pairs shadow any older
binding of the same keys. -/
def ctxUpdate (c : Ctx) (d : List (String × CtxVal)) : Ctx :=
  d ++ c

/-- latestRender embeds `CMSLatestEntriesPlugin.render` (lines 65-91):
compute the filtered, deduplicated, limited entries and update the context
with `entries`, `object` and `placeholder`. -/
def latestRender (getDescendants : Nat → List Nat) (published : List Entry)
    (context : Ctx) (inst : LatestEntriesPlugin) (placeholder : String) :
    Ctx :=
  ctxUpdate context
    [("entries", .entryList (latestEntries getDescendants published inst)),
     ("object", .latestInst inst),
     ("placeholder", .placeholderVal placeholder)]

/-- selectedRender embeds `CMSSelectedEntriesPlugin.render` (lines 104-111):
update the context with the stored entry list, the instance and the
placeholder; no filtering, deduplication or limiting is applied. -/
def selectedRender (context : Ctx) (inst : SelectedEntriesPlugin)
    (placeholder : String) : Ctx :=
  ctxUpdate context
    [("entries", .entryList inst.entries),
     ("object", .selectedInst inst),
     ("placeholder", .placeholderVal placeholder)]

/-- randomRender embeds `CMSRandomEntriesPlugin.render` (lines 123-132):
update the context with the instance, the placeholder and
`template_to_render`, which is `str(instance.template_to_render) or
'zinnia/tags/random_entries.html'` - the override when it is a non-empty
(truthy) string, the default name otherwise.  No entries are computed. -/
def randomRender (context : Ctx) (inst : RandomEntriesPlugin)
    (placeholder : String) : Ctx :=
  ctxUpdate context
    [("object", .randomInst inst),
     ("placeholder", .placeholderVal placeholder),
     ("template_to_render", .strVal
       (if inst.template_to_render = "" then "zinnia/tags/random_entries.html"
        else inst.template_to_render))]

/-- queryRender embeds `CMSQueryEntriesPlugin.render` (lines 144-155):
update the context with the searched, limited entries, the instance and the
placeholder. -/
def queryRender (search : String → List Entry) (context : Ctx)
    (inst : QueryEntriesPlugin) (placeholder : String) : Ctx :=
  ctxUpdate context
    [("entries", .entryList (queryEntries search inst)),
     ("object", .queryInst inst),
     ("placeholder", .placeholderVal placeholder)]

/-- calendarRender embeds `CMSCalendarEntriesPlugin.render` (lines 171-177):
it only updates the context with the instance and the placeholder; the
year/month parameters travel inside the instance. -/
def calendarRender (context : Ctx) (inst : CalendarEntriesPlugin)
    (placeholder : String) : Ctx :=
  ctxUpdate context
    [("object", .calendarInst inst),
     ("placeholder", .placeholderVal placeholder)]

/-- searchFormRender embeds `CMSSearchPlugin.render` (lines 188-194): update
the context with the generic CMS plugin instance and the placeholder. -/
def searchFormRender (context : Ctx) (instId : Nat)
    (placeholder : String) : Ctx :=
  ctxUpdate context
    [("object", .cmsInst instId),
     ("placeholder", .placeholderVal placeholder)]

/-- toolsRender embeds `CMSToolsPlugin.render` (lines 211-217): update the
context with the generic CMS plugin instance and the placeholder. -/
def toolsRender (context : Ctx) (instId : Nat)
    (placeholder : String) : Ctx :=
  ctxUpdate context
    [("object", .cmsInst instId),
     ("placeholder", .placeholderVal placeholder)]

/-- Modelled from the spec: the calendar rendering layer (the repository's
`cmsplugin_zinnia/calendar.html` template, which consumes the instance that
`calendarRender` puts in the context) is part of this repository but absent
from `src/`.  Per the spec ("No computation; passes raw parameters,
defaulting to current month, to rendering layer" and "Calendar variant
defaults to the current year/month when neither is supplied"), it hands the
calendar the configured year and month, or the current year and month when
they are not supplied. -/
def calendarParams (currentYear currentMonth : Nat)
    (inst : CalendarEntriesPlugin) : Nat × Nat :=
  match inst.year, inst.month with
  | some y, some m => (y, m)
  | _, _ => (currentYear, currentMonth)

theorem mem_distinctAux [DecidableEq α] (x : α) (l : List α) :
    ∀ seen : List α, x ∈ distinctAux seen l ↔ x ∈ l ∧ x ∉ seen := by
  induction l with
  | nil => intro seen; simp [distinctAux]
  | cons a l ih =>
    intro seen
    by_cases h : a ∈ seen
    · simp only [distinctAux, if_pos h, ih, List.mem_cons]
      constructor
      · rintro ⟨hx, hns⟩; exact ⟨Or.inr hx, hns⟩
      · rintro ⟨hx | hx, hns⟩
        · exact absurd (hx ▸ h) hns
        · exact ⟨hx, hns⟩
    · simp only [distinctAux, if_neg h, List.mem_cons, ih]
      constructor
      · rintro (rfl | ⟨hx, hns⟩)
        · exact ⟨Or.inl rfl, h⟩
        · exact ⟨Or.inr hx, fun hs => hns (Or.inr hs)⟩
      · rintro ⟨rfl | hx, hns⟩
        · exact Or.inl rfl
        · by_cases hxa : x = a
          · exact Or.inl hxa
          · exact Or.inr ⟨hx, by simp [List.mem_cons, hxa, hns]⟩
  
theorem nodup_distinctAux [DecidableEq α] (l : List α) :
    ∀ seen : List α, (distinctAux seen l).Nodup := by
  induction l with
  | nil => intro seen; simp [distinctAux]
  | cons a l ih =>
    intro seen
    by_cases h : a ∈ seen
    · simpa only [distinctAux, if_pos h] using ih seen
    · simp only [distinctAux, if_neg h, List.nodup_cons]
      refine ⟨fun hmem => ?_, ih _⟩
      exact ((mem_distinctAux a l (a :: seen)).1 hmem).2 (List.mem_cons_self a seen)

theorem mem_distinct [DecidableEq α] (x : α) (l : List α) :
    x ∈ distinct l ↔ x ∈ l := by
  simp [distinct, mem_distinctAux]

theorem nodup_distinct [DecidableEq α] (l : List α) : (distinct l).Nodup :=
  nodup_distinctAux l []

theorem filter_length_ne_zero {p : α → Bool} (l : List α) :
    (l.filter p).length ≠ 0 ↔ ∃ a ∈ l, p a := by
  rw [Ne, List.length_eq_zero, List.filter_eq_nil_iff]
  push_neg
  simp

theorem mem_catJoinFilter (e : Entry) (cats : List Nat) (qs : List Entry) :
    e ∈ catJoinFilter cats qs ↔
      e ∈ qs ∧ ∃ c ∈ e.categories, c ∈ cats := by
  simp only [catJoinFilter, List.mem_flatten, List.mem_map]
  constructor
  · rintro ⟨l, ⟨a, ha, rfl⟩, hm⟩
    rw [List.mem_replicate] at hm
    obtain ⟨hn, rfl⟩ := hm
    refine ⟨ha, ?_⟩
    obtain ⟨c, hc, hp⟩ := (filter_length_ne_zero _).1 hn
    exact ⟨c, hc, by simpa using hp⟩
  · rintro ⟨he, c, hc, hcc⟩
    refine ⟨_, ⟨e, he, rfl⟩, List.mem_replicate.2 ⟨?_, rfl⟩⟩
    exact (filter_length_ne_zero _).2 ⟨c, hc, by simpa using hcc⟩

theorem mem_authorJoinFilter (e : Entry) (auths : List Nat) (qs : List Entry) :
    e ∈ authorJoinFilter auths qs ↔
      e ∈ qs ∧ ∃ a ∈ e.authors, a ∈ auths := by
  simp only [authorJoinFilter, List.mem_flatten, List.mem_map]
  constructor
  · rintro ⟨l, ⟨a, ha, rfl⟩, hm⟩
    rw [List.mem_replicate] at hm
    obtain ⟨hn, rfl⟩ := hm
    refine ⟨ha, ?_⟩
    obtain ⟨c, hc, hp⟩ := (filter_length_ne_zero _).1 hn
    exact ⟨c, hc, by simpa using hp⟩
  · rintro ⟨he, c, hc, hcc⟩
    refine ⟨_, ⟨e, he, rfl⟩, List.mem_replicate.2 ⟨?_, rfl⟩⟩
    exact (filter_length_ne_zero _).2 ⟨c, hc, by simpa using hcc⟩

theorem mem_tagUnionFilter (e : Entry) (tags : List String) (qs : List Entry) :
    e ∈ tagUnionFilter tags qs ↔
      e ∈ qs ∧ ∃ t ∈ e.tags, t ∈ tags := by
  unfold tagUnionFilter
  by_cases h : tags.isEmpty
  · rw [List.isEmpty_iff] at h
    subst h
    simp
  · rw [if_neg h]
    simp [List.mem_filter]

theorem mem_catStage (gd : Nat → List Nat) (inst : LatestEntriesPlugin)
    (qs : List Entry) (e : Entry) :
    e ∈ catStage gd inst qs ↔
      e ∈ qs ∧ (inst.categories = [] ∨
        ∃ c ∈ e.categories, c ∈ effectiveCategories gd inst) := by
  unfold catStage
  by_cases h : inst.categories = []
  · simp [h]
  · simp [h, mem_catJoinFilter]

theorem mem_authorStage (inst : LatestEntriesPlugin)
    (qs : List Entry) (e : Entry) :
    e ∈ authorStage inst qs ↔
      e ∈ qs ∧ (inst.authors = [] ∨ ∃ a ∈ e.authors, a ∈ inst.authors) := by
  unfold authorStage
  by_cases h : inst.authors = []
  · simp [h]
  · simp [h, mem_authorJoinFilter]

theorem mem_tagStage (inst : LatestEntriesPlugin)
    (qs : List Entry) (e : Entry) :
    e ∈ tagStage inst qs ↔
      e ∈ qs ∧ (inst.tags = [] ∨ ∃ t ∈ e.tags, t ∈ inst.tags) := by
  unfold tagStage
  by_cases h : inst.tags = []
  · simp [h]
  · simp [h, mem_tagUnionFilter]

theorem mem_latestSelected (gd : Nat → List Nat) (pub : List Entry)
    (inst : LatestEntriesPlugin) (e : Entry) :
    e ∈ latestSelected gd pub inst ↔
      e ∈ pub ∧
      (inst.categories = [] ∨
        ∃ c ∈ e.categories, c ∈ effectiveCategories gd inst) ∧
      (inst.authors = [] ∨ ∃ a ∈ e.authors, a ∈ inst.authors) ∧
      (inst.tags = [] ∨ ∃ t ∈ e.tags, t ∈ inst.tags) := by
  unfold latestSelected
  rw [mem_distinct, mem_tagStage, mem_authorStage, mem_catStage]
  tauto

theorem nodup_latestSelected (gd : Nat → List Nat) (pub : List Entry)
    (inst : LatestEntriesPlugin) : (latestSelected gd pub inst).Nodup := by
  unfold latestSelected
  exact nodup_distinct _

/-- gd0 is a concrete category-descendants map used in the concrete
instantiations below: category 1 has the single descendant 2. -/
def gd0 : Nat → List Nat := fun c => if c = 1 then [2] else []

/-- entryA is a concrete entry in category 1, by author 5, tagged "a". -/
def entryA : Entry := ⟨1, [1], [5], ["a"]⟩

/-- entryB is a concrete entry in category 2, by author 5, tagged "b". -/
def entryB : Entry := ⟨2, [2], [5], ["b"]⟩

/-- entryC is a concrete entry in category 3, by author 6, tagged "a" and
"b". -/
def entryC : Entry := ⟨3, [3], [6], ["a", "b"]⟩

/-- entryD is a concrete entry in category 4, by author 7, with no tags. -/
def entryD : Entry := ⟨4, [4], [7], []⟩

/-- pub0 is a concrete base queryset of published entries. -/
def pub0 : List Entry := [entryA, entryB, entryC, entryD]

/-- search0 is a concrete search capability returning `pub0` for every
query. -/
def search0 : String → List Entry := fun _ => pub0

example :
    latestSelected gd0 pub0 ⟨0, "", [], false, [], ["a", "b"]⟩ =
      [entryA, entryB, entryC] := by decide

example :
    latestEntries gd0 pub0 ⟨2, "", [], false, [], ["a", "b"]⟩ =
      [entryA, entryB] := by decide

example :
    latestSelected gd0 pub0 ⟨0, "", [1], true, [], []⟩ =
      [entryA, entryB] := by decide

example :
    latestSelected gd0 pub0 ⟨0, "", [1], false, [], []⟩ = [entryA] := by decide

/-- C1: in the latest-entries render with a tag filter configured (and the
other criteria unconfigured), every published entry carrying at least one of
the configured tags appears in the rendered selection (inclusive OR across
the tag set), and it appears exactly once — its multiplicity in the output
is 1 — even when it carries several of the configured tags. -/
theorem latest_tag_or_unique (gd : Nat → List Nat) (pub : List Entry)
    (inst : LatestEntriesPlugin) (e : Entry)
    (hc : inst.categories = []) (ha : inst.authors = [])
    (hpub : e ∈ pub) (htag : ∃ t ∈ e.tags, t ∈ inst.tags) :
    e ∈ latestSelected gd pub inst ∧
      (latestSelected gd pub inst).count e = 1 := by
  have hmem : e ∈ latestSelected gd pub inst := by
    rw [mem_latestSelected]
    exact ⟨hpub, Or.inl hc, Or.inl ha, Or.inr htag⟩
  exact ⟨hmem, List.count_eq_one_of_mem (nodup_latestSelected gd pub inst) hmem⟩

/-- Witness for C1: the entry tagged both "a" and "b" appears exactly once
in the selection for the tag filter {"a", "b"}. -/
theorem latest_tag_or_unique_witness :
    entryC ∈ latestSelected gd0 pub0 ⟨0, "", [], false, [], ["a", "b"]⟩ ∧
      (latestSelected gd0 pub0 ⟨0, "", [], false, [], ["a", "b"]⟩).count
        entryC = 1 :=
  latest_tag_or_unique gd0 pub0 ⟨0, "", [], false, [], ["a", "b"]⟩ entryC
    rfl rfl (by decide) (by decide)

/-- C2: in the latest-entries render, each of the three filter criteria is a
no-op when its configured set is empty: the category, author and tag stages
each pass the incoming queryset through unmodified. -/
theorem empty_filter_noop (gd : Nat → List Nat) (inst : LatestEntriesPlugin)
    (qs : List Entry) :
    (inst.categories = [] → catStage gd inst qs = qs) ∧
    (inst.authors = [] → authorStage inst qs = qs) ∧
    (inst.tags = [] → tagStage inst qs = qs) := by
  refine ⟨fun h => ?_, fun h => ?_, fun h => ?_⟩
  · simp [catStage, h]
  · simp [authorStage, h]
  · simp [tagStage, h]

/-- Witness for C2: with every filter set empty, all three stages leave the
concrete queryset unchanged. -/
theorem empty_filter_noop_witness :
    (catStage gd0 ⟨0, "", [], false, [], []⟩ pub0 = pub0) ∧
    (authorStage ⟨0, "", [], false, [], []⟩ pub0 = pub0) ∧
    (tagStage ⟨0, "", [], false, [], []⟩ pub0 = pub0) :=
  ⟨(empty_filter_noop gd0 ⟨0, "", [], false, [], []⟩ pub0).1 rfl,
   (empty_filter_noop gd0 ⟨0, "", [], false, [], []⟩ pub0).2.1 rfl,
   (empty_filter_noop gd0 ⟨0, "", [], false, [], []⟩ pub0).2.2 rfl⟩

/-- C3: in the latest-entries and query-entries renders, a nonzero limit L
truncates the (already deduplicated) result to its first L entries — the
output is exactly `take L` of the untruncated result, hence the
pre-truncation order is preserved — while a limit of 0 (Python falsy,
covering unset) leaves the result unmodified. -/
theorem limit_truncates (gd : Nat → List Nat) (pub : List Entry)
    (search : String → List Entry) (inst : LatestEntriesPlugin)
    (qinst : QueryEntriesPlugin) :
    (inst.number_of_entries ≠ 0 →
      latestEntries gd pub inst =
        (latestSelected gd pub inst).take inst.number_of_entries) ∧
    (inst.number_of_entries = 0 →
      latestEntries gd pub inst = latestSelected gd pub inst) ∧
    (qinst.number_of_entries ≠ 0 →
      queryEntries search qinst =
        (search qinst.query).take qinst.number_of_entries) ∧
    (qinst.number_of_entries = 0 →
      queryEntries search qinst = search qinst.query) := by
  refine ⟨fun h => ?_, fun h => ?_, fun h => ?_, fun h => ?_⟩
  · simp [latestEntries, h]
  · simp [latestEntries, h]
  · simp [queryEntries, h]
  · simp [queryEntries, h]

/-- Witness for C3: limit 3 takes the first three selected entries, limit 0
leaves the selection unchanged, for both plugin variants. -/
theorem limit_truncates_witness :
    (latestEntries gd0 pub0 ⟨3, "", [], false, [], ["a", "b"]⟩ =
      (latestSelected gd0 pub0 ⟨3, "", [], false, [], ["a", "b"]⟩).take 3) ∧
    (latestEntries gd0 pub0 ⟨0, "", [], false, [], ["a", "b"]⟩ =
      latestSelected gd0 pub0 ⟨0, "", [], false, [], ["a", "b"]⟩) ∧
    (queryEntries search0 ⟨"zinnia", 3, ""⟩ =
      (search0 "zinnia").take 3) ∧
    (queryEntries search0 ⟨"zinnia", 0, ""⟩ = search0 "zinnia") :=
  ⟨(limit_truncates gd0 pub0 search0 ⟨3, "", [], false, [], ["a", "b"]⟩
      ⟨"zinnia", 3, ""⟩).1 (by decide),
   (limit_truncates gd0 pub0 search0 ⟨0, "", [], false, [], ["a", "b"]⟩
      ⟨"zinnia", 0, ""⟩).2.1 rfl,
   (limit_truncates gd0 pub0 search0 ⟨3, "", [], false, [], ["a", "b"]⟩
      ⟨"zinnia", 3, ""⟩).2.2.1 (by decide),
   (limit_truncates gd0 pub0 search0 ⟨0, "", [], false, [], ["a", "b"]⟩
      ⟨"zinnia", 0, ""⟩).2.2.2 rfl⟩

/-- C10: the latest-entries output contains no duplicate entries for every
configuration — `distinct()` is applied unconditionally on line 85, outside
every filter branch — and truncation preserves that. -/
theorem latest_nodup (gd : Nat → List Nat) (pub : List Entry)
    (inst : LatestEntriesPlugin) : (latestEntries gd pub inst).Nodup := by
  unfold latestEntries
  by_cases h : inst.number_of_entries ≠ 0
  · rw [if_pos h]
    exact (nodup_latestSelected gd pub inst).sublist
      (List.take_sublist inst.number_of_entries _)
  · rw [if_neg h]
    exact nodup_latestSelected gd pub inst

/-- C4: the selected-entries render passes the explicitly configured entry
list through unchanged: the `entries` key of the output context holds
exactly the stored list, in stored order, with no filtering and no
deduplication applied. -/
theorem selected_passthrough (context : Ctx) (inst : SelectedEntriesPlugin)
    (placeholder : String) :
    ctxGet (selectedRender context inst placeholder) "entries" =
      some (.entryList inst.entries) := by
  simp [selectedRender, ctxUpdate, ctxGet]

/-- C5: when neither year nor month is supplied in the calendar plugin's
configuration, the parameters handed to the rendering layer default to the
current year and month. -/
theorem calendar_defaults_current (currentYear currentMonth : Nat) :
    calendarParams currentYear currentMonth ⟨none, none⟩ =
      (currentYear, currentMonth) := rfl

/-- C6: enabling the subcategories (descendant expansion) flag yields an
effective category set containing the whole effective set with the flag
disabled, and consequently every entry selected with the flag disabled is
also selected with it enabled. -/
theorem subcategories_monotone (gd : Nat → List Nat) (pub : List Entry)
    (inst : LatestEntriesPlugin) (c : Nat) (e : Entry) :
    (c ∈ effectiveCategories gd { inst with subcategories := false } →
      c ∈ effectiveCategories gd { inst with subcategories := true }) ∧
    (e ∈ latestSelected gd pub { inst with subcategories := false } →
      e ∈ latestSelected gd pub { inst with subcategories := true }) := by
  constructor
  · intro h
    simp [effectiveCategories] at h ⊢
    exact Or.inl h
  · intro h
    rw [mem_latestSelected] at h ⊢
    obtain ⟨hp, hcat, hauth, htags⟩ := h
    refine ⟨hp, ?_, hauth, htags⟩
    rcases hcat with h0 | ⟨c', hc', hmem⟩
    · exact Or.inl h0
    · refine Or.inr ⟨c', hc', ?_⟩
      simp [effectiveCategories] at hmem ⊢
      exact Or.inl hmem

/-- Witness for C6: category 1 stays in the expanded set, and the entry in
category 1, selected without expansion, is still selected with it. -/
theorem subcategories_monotone_witness :
    (1 ∈ effectiveCategories gd0 ⟨0, "", [1], true, [], []⟩) ∧
    (entryA ∈ latestSelected gd0 pub0 ⟨0, "", [1], true, [], []⟩) := by
  have h := subcategories_monotone gd0 pub0 ⟨0, "", [1], false, [], []⟩ 1 entryA
  exact ⟨h.1 (by decide), h.2 (by decide)⟩

/-- C7: with all three filter criteria configured, the latest-entries
selection contains exactly the published entries satisfying the category
restriction AND the author restriction AND the tag restriction. -/
theorem filters_conjunctive (gd : Nat → List Nat) (pub : List Entry)
    (inst : LatestEntriesPlugin) (e : Entry)
    (hc : inst.categories ≠ []) (ha : inst.authors ≠ [])
    (ht : inst.tags ≠ []) :
    e ∈ latestSelected gd pub inst ↔
      e ∈ pub ∧
      (∃ c ∈ e.categories, c ∈ effectiveCategories gd inst) ∧
      (∃ a ∈ e.authors, a ∈ inst.authors) ∧
      (∃ t ∈ e.tags, t ∈ inst.tags) := by
  rw [mem_latestSelected]
  simp [hc, ha, ht]

/-- Witness for C7: for a concrete configuration with all three criteria
set, membership of the matching entry coincides with the conjunction. -/
theorem filters_conjunctive_witness :
    entryA ∈ latestSelected gd0 pub0 ⟨0, "", [1], false, [5], ["a"]⟩ ↔
      entryA ∈ pub0 ∧
      (∃ c ∈ entryA.categories,
        c ∈ effectiveCategories gd0 ⟨0, "", [1], false, [5], ["a"]⟩) ∧
      (∃ a ∈ entryA.authors, a ∈ [5]) ∧
      (∃ t ∈ entryA.tags, t ∈ ["a"]) :=
  filters_conjunctive gd0 pub0 ⟨0, "", [1], false, [5], ["a"]⟩ entryA
    (by decide) (by decide) (by decide)

/-- C8: the random-entries render computes no entries itself (the `entries`
binding of the context is untouched) and hands the rendering layer a named
template: `template_to_render` is the configured override when that override
is a non-empty string and `zinnia/tags/random_entries.html` otherwise. -/
theorem random_template_choice (context : Ctx) (inst : RandomEntriesPlugin)
    (placeholder : String) :
    (inst.template_to_render ≠ "" →
      ctxGet (randomRender context inst placeholder) "template_to_render" =
        some (.strVal inst.template_to_render)) ∧
    (inst.template_to_render = "" →
      ctxGet (randomRender context inst placeholder) "template_to_render" =
        some (.strVal "zinnia/tags/random_entries.html")) ∧
    ctxGet (randomRender context inst placeholder) "entries" =
      ctxGet context "entries" := by
  refine ⟨fun h => ?_, fun h => ?_, ?_⟩
  · simp [randomRender, ctxUpdate, ctxGet, h]
  · simp [randomRender, ctxUpdate, ctxGet, h]
  · simp [randomRender, ctxUpdate, ctxGet]

/-- Witness for C8: a non-empty override is used verbatim, an empty one
falls back to the default template, and `entries` stays untouched. -/
theorem random_template_choice_witness :
    (ctxGet (randomRender [] ⟨5, "custom.html"⟩ "ph") "template_to_render" =
      some (.strVal "custom.html")) ∧
    (ctxGet (randomRender [] ⟨5, ""⟩ "ph") "template_to_render" =
      some (.strVal "zinnia/tags/random_entries.html")) ∧
    ctxGet (randomRender [] ⟨5, ""⟩ "ph") "entries" =
      ctxGet ([] : Ctx) "entries" :=
  ⟨(random_template_choice [] ⟨5, "custom.html"⟩ "ph").1 (by decide),
   (random_template_choice [] ⟨5, ""⟩ "ph").2.1 rfl,
   (random_template_choice [] ⟨5, ""⟩ "ph").2.2⟩

theorem ctxGet_update_other (c : Ctx) (d : List (String × CtxVal))
    (k : String) (h : ∀ p ∈ d, p.1 ≠ k) :
    ctxGet (ctxUpdate c d) k = ctxGet c k := by
  induction d with
  | nil => rfl
  | cons p d ih =>
    cases p with
    | mk k0 v0 =>
      show ctxGet ((k0, v0) :: (d ++ c)) k = ctxGet c k
      rw [ctxGet, if_neg (h _ (List.mem_cons_self _ _))]
      exact ih (fun q hq => h q (List.mem_cons_of_mem _ hq))

theorem ctxGet_update_not_key (c : Ctx) (d : List (String × CtxVal))
    (k : String) (h : k ∉ d.map Prod.fst) :
    ctxGet (ctxUpdate c d) k = ctxGet c k := by
  apply ctxGet_update_other
  intro p hp hpk
  exact h (hpk ▸ List.mem_map_of_mem Prod.fst hp)

/-- C9: every render operation of every plugin variant returns the given
context augmented with its new keys — always including `object` and
`placeholder` — and every key not among the keys that variant adds keeps the
value it had in the input context. -/
theorem render_frame (gd : Nat → List Nat) (pub : List Entry)
    (search : String → List Entry) (context : Ctx)
    (li : LatestEntriesPlugin) (si : SelectedEntriesPlugin)
    (ri : RandomEntriesPlugin) (qi : QueryEntriesPlugin)
    (ci : CalendarEntriesPlugin) (n m : Nat) (pl k : String) :
    (ctxGet (latestRender gd pub context li pl) "object" =
        some (.latestInst li) ∧
      ctxGet (latestRender gd pub context li pl) "placeholder" =
        some (.placeholderVal pl) ∧
      (k ∉ ["entries", "object", "placeholder"] →
        ctxGet (latestRender gd pub context li pl) k = ctxGet context k)) ∧
    (ctxGet (selectedRender context si pl) "object" =
        some (.selectedInst si) ∧
      ctxGet (selectedRender context si pl) "placeholder" =
        some (.placeholderVal pl) ∧
      (k ∉ ["entries", "object", "placeholder"] →
        ctxGet (selectedRender context si pl) k = ctxGet context k)) ∧
    (ctxGet (randomRender context ri pl) "object" =
        some (.randomInst ri) ∧
      ctxGet (randomRender context ri pl) "placeholder" =
        some (.placeholderVal pl) ∧
      (k ∉ ["object", "placeholder", "template_to_render"] →
        ctxGet (randomRender context ri pl) k = ctxGet context k)) ∧
    (ctxGet (queryRender search context qi pl) "object" =
        some (.queryInst qi) ∧
      ctxGet (queryRender search context qi pl) "placeholder" =
        some (.placeholderVal pl) ∧
      (k ∉ ["entries", "object", "placeholder"] →
        ctxGet (queryRender search context qi pl) k = ctxGet context k)) ∧
    (ctxGet (calendarRender context ci pl) "object" =
        some (.calendarInst ci) ∧
      ctxGet (calendarRender context ci pl) "placeholder" =
        some (.placeholderVal pl) ∧
      (k ∉ ["object", "placeholder"] →
        ctxGet (calendarRender context ci pl) k = ctxGet context k)) ∧
    (ctxGet (searchFormRender context n pl) "object" = some (.cmsInst n) ∧
      ctxGet (searchFormRender context n pl) "placeholder" =
        some (.placeholderVal pl) ∧
      (k ∉ ["object", "placeholder"] →
        ctxGet (searchFormRender context n pl) k = ctxGet context k)) ∧
    (ctxGet (toolsRender context m pl) "object" = some (.cmsInst m) ∧
      ctxGet (toolsRender context m pl) "placeholder" =
        some (.placeholderVal pl) ∧
      (k ∉ ["object", "placeholder"] →
        ctxGet (toolsRender context m pl) k = ctxGet context k)) := by
  refine ⟨⟨?_, ?_, fun h => ?_⟩, ⟨?_, ?_, fun h => ?_⟩, ⟨?_, ?_, fun h => ?_⟩,
    ⟨?_, ?_, fun h => ?_⟩, ⟨?_, ?_, fun h => ?_⟩, ⟨?_, ?_, fun h => ?_⟩,
    ⟨?_, ?_, fun h => ?_⟩⟩
  · simp [latestRender, ctxUpdate, ctxGet]
  · simp [latestRender, ctxUpdate, ctxGet]
  · exact ctxGet_update_not_key context _ k (by simpa using h)
  · simp [selectedRender, ctxUpdate, ctxGet]
  · simp [selectedRender, ctxUpdate, ctxGet]
  · exact ctxGet_update_not_key context _ k (by simpa using h)
  · simp [randomRender, ctxUpdate, ctxGet]
  · simp [randomRender, ctxUpdate, ctxGet]
  · exact ctxGet_update_not_key context _ k (by simpa using h)
  · simp [queryRender, ctxUpdate, ctxGet]
  · simp [queryRender, ctxUpdate, ctxGet]
  · exact ctxGet_update_not_key context _ k (by simpa using h)
  · simp [calendarRender, ctxUpdate, ctxGet]
  · simp [calendarRender, ctxUpdate, ctxGet]
  · exact ctxGet_update_not_key context _ k (by simpa using h)
  · simp [searchFormRender, ctxUpdate, ctxGet]
  · simp [searchFormRender, ctxUpdate, ctxGet]
  · exact ctxGet_update_not_key context _ k (by simpa using h)
  · simp [toolsRender, ctxUpdate, ctxGet]
  · simp [toolsRender, ctxUpdate, ctxGet]
  · exact ctxGet_update_not_key context _ k (by simpa using h)

/-- Witness for C9: at a concrete context holding a key "page_title", every
variant's render sets `object` and `placeholder` and leaves "page_title"
bound to its old value. -/
theorem render_frame_witness :
    (ctxGet (latestRender gd0 pub0 [("page_title", .strVal "Home")]
        ⟨0, "", [], false, [], []⟩ "ph") "object" =
        some (.latestInst ⟨0, "", [], false, [], []⟩) ∧
      ctxGet (latestRender gd0 pub0 [("page_title", .strVal "Home")]
        ⟨0, "", [], false, [], []⟩ "ph") "placeholder" =
        some (.placeholderVal "ph") ∧
      ctxGet (latestRender gd0 pub0 [("page_title", .strVal "Home")]
        ⟨0, "", [], false, [], []⟩ "ph") "page_title" =
        ctxGet [("page_title", .strVal "Home")] "page_title") ∧
    (ctxGet (selectedRender [("page_title", .strVal "Home")] ⟨pub0, ""⟩ "ph")
        "object" = some (.selectedInst ⟨pub0, ""⟩) ∧
      ctxGet (selectedRender [("page_title", .strVal "Home")] ⟨pub0, ""⟩ "ph")
        "placeholder" = some (.placeholderVal "ph") ∧
      ctxGet (selectedRender [("page_title", .strVal "Home")] ⟨pub0, ""⟩ "ph")
        "page_title" = ctxGet [("page_title", .strVal "Home")] "page_title") ∧
    (ctxGet (randomRender [("page_title", .strVal "Home")] ⟨5, ""⟩ "ph")
        "object" = some (.randomInst ⟨5, ""⟩) ∧
      ctxGet (randomRender [("page_title", .strVal "Home")] ⟨5, ""⟩ "ph")
        "placeholder" = some (.placeholderVal "ph") ∧
      ctxGet (randomRender [("page_title", .strVal "Home")] ⟨5, ""⟩ "ph")
        "page_title" = ctxGet [("page_title", .strVal "Home")] "page_title") ∧
    (ctxGet (queryRender search0 [("page_title", .strVal "Home")]
        ⟨"q", 0, ""⟩ "ph") "object" = some (.queryInst ⟨"q", 0, ""⟩) ∧
      ctxGet (queryRender search0 [("page_title", .strVal "Home")]
        ⟨"q", 0, ""⟩ "ph") "placeholder" = some (.placeholderVal "ph") ∧
      ctxGet (queryRender search0 [("page_title", .strVal "Home")]
        ⟨"q", 0, ""⟩ "ph") "page_title" =
        ctxGet [("page_title", .strVal "Home")] "page_title") ∧
    (ctxGet (calendarRender [("page_title", .strVal "Home")]
        ⟨some 2026, some 10⟩ "ph") "object" =
        some (.calendarInst ⟨some 2026, some 10⟩) ∧
      ctxGet (calendarRender [("page_title", .strVal "Home")]
        ⟨some 2026, some 10⟩ "ph") "placeholder" =
        some (.placeholderVal "ph") ∧
      ctxGet (calendarRender [("page_title", .strVal "Home")]
        ⟨some 2026, some 10⟩ "ph") "page_title" =
        ctxGet [("page_title", .strVal "Home")] "page_title") ∧
    (ctxGet (searchFormRender [("page_title", .strVal "Home")] 7 "ph")
        "object" = some (.cmsInst 7) ∧
      ctxGet (searchFormRender [("page_title", .strVal "Home")] 7 "ph")
        "placeholder" = some (.placeholderVal "ph") ∧
      ctxGet (searchFormRender [("page_title", .strVal "Home")] 7 "ph")
        "page_title" = ctxGet [("page_title", .strVal "Home")] "page_title") ∧
    (ctxGet (toolsRender [("page_title", .strVal "Home")] 8 "ph")
        "object" = some (.cmsInst 8) ∧
      ctxGet (toolsRender [("page_title", .strVal "Home")] 8 "ph")
        "placeholder" = some (.placeholderVal "ph") ∧
      ctxGet (toolsRender [("page_title", .strVal "Home")] 8 "ph")
        "page_title" = ctxGet [("page_title", .strVal "Home")] "page_title") := by
  have h := render_frame gd0 pub0 search0 [("page_title", .strVal "Home")]
    ⟨0, "", [], false, [], []⟩ ⟨pub0, ""⟩ ⟨5, ""⟩ ⟨"q", 0, ""⟩
    ⟨some 2026, some 10⟩ 7 8 "ph" "page_title"
  exact ⟨⟨h.1.1, h.1.2.1, h.1.2.2 (by decide)⟩,
    ⟨h.2.1.1, h.2.1.2.1, h.2.1.2.2 (by decide)⟩,
    ⟨h.2.2.1.1, h.2.2.1.2.1, h.2.2.1.2.2 (by decide)⟩,
    ⟨h.2.2.2.1.1, h.2.2.2.1.2.1, h.2.2.2.1.2.2 (by decide)⟩,
    ⟨h.2.2.2.2.1.1, h.2.2.2.2.1.2.1, h.2.2.2.2.1.2.2 (by decide)⟩,
    ⟨h.2.2.2.2.2.1.1, h.2.2.2.2.2.1.2.1, h.2.2.2.2.2.1.2.2 (by decide)⟩,
    ⟨h.2.2.2.2.2.2.1, h.2.2.2.2.2.2.2.1, h.2.2.2.2.2.2.2.2 (by decide)⟩⟩
